import Mathlib

/-!
# Verification of the user-table verification engine

Shallow embedding of the row verification engine of the repository
(`verifyCore.ts`, the config-driven `verifyUsers.ts` / `verifyUpdateUsers.ts`
wrappers, and the legacy standalone validators), together with proofs of the
specified properties.

Cells of a spreadsheet row are strings, numbers, `null` or `undefined`; a row
is a list of cells and a batch is a list of rows.
-/

namespace VerifyCore

/-- A spreadsheet cell as it reaches the engine: a string, a number,
`null`, or `undefined` (also used for out-of-range reads). -/
inductive Cell where
  | str (s : String)
  | num (n : Int)
  | null
  | undef
deriving DecidableEq, Repr

/-- JavaScript `String(raw ?? '')`: `null`/`undefined` become the empty
string, strings stay, numbers print. -/
def Cell.render : Cell → String
  | .str s => s
  | .num n => toString n
  | .null => ""
  | .undef => ""

/-- JavaScript `value.trim()`: drop whitespace from both ends (structural on
the character list, so that proofs can evaluate it). -/
def jsTrim (s : String) : String :=
  ⟨((s.data.dropWhile Char.isWhitespace).reverse.dropWhile
      Char.isWhitespace).reverse⟩

/-- JavaScript `value.toLowerCase()` (ASCII case mapping). -/
def jsToLower (s : String) : String :=
  ⟨s.data.map Char.toLower⟩

/-- JavaScript `value.split(sep)` for a one-character separator: the list of
(possibly empty) chunks between occurrences of `sep`; `''.split(sep)` is
`['']`. -/
def splitData (sep : Char) : List Char → List (List Char)
  | [] => [[]]
  | c :: cs =>
      let rest := splitData sep cs
      if c = sep then [] :: rest
      else
        match rest with
        | r :: rs => (c :: r) :: rs
        | [] => [[c]]

/-- JavaScript `value.split(sep)` on strings. -/
def jsSplitOn (s : String) (sep : Char) : List String :=
  (splitData sep s.data).map fun l => ⟨l⟩

/-- JavaScript `parts.join(sep)` on a list of strings. -/
def jsJoin (sep : String) : List String → String
  | [] => ""
  | [x] => x
  | x :: xs => x ++ sep ++ jsJoin sep xs

def UPN_DOMAIN : String := "majorel.com"

def MAIL_DOMAINS : List String := ["majorel.com", "mj.teleperformance.com"]

def MAX_DATA_ROWS : Nat := 100

/-- Result record of `verify`; `noInputTable` is optional in the source and
absent (falsy) on every result `verify` builds. -/
structure VerifyUsersResult where
  success : Bool
  totalRows : Nat
  okCount : Nat
  problemCount : Nat
  problemRowIndices : List Nat
  noInputTable : Bool := false
deriving DecidableEq, Repr

/-- `noInputTableResult()` from `verifyCore.ts`. -/
def noInputTableResult : VerifyUsersResult :=
  { success := false
    totalRows := 0
    okCount := 0
    problemCount := 0
    problemRowIndices := []
    noInputTable := true }

/-- `cellValue(row, index)`: read a cell (out-of-range reads give
`undefined`), coerce `null`/`undefined` to `''`, stringify, trim. -/
def cellValue (row : List Cell) (index : Nat) : String :=
  jsTrim ((row.getD index Cell.undef).render)

/-- `isValidEmailFormat(value)`: non-empty, splits on `@` into exactly two
non-empty parts. -/
def isValidEmailFormat (value : String) : Bool :=
  if value = "" then false
  else
    match jsSplitOn value '@' with
    | [p0, p1] => decide (0 < p0.length) && decide (0 < p1.length)
    | _ => false

/-- `parseEmail(value)`: split on `@`; exactly two parts, both non-blank
after trimming, domain lower-cased. -/
def parseEmail (value : String) : Option (String × String) :=
  match jsSplitOn value '@' with
  | [p0, p1] =>
      if jsTrim p0 = "" ∨ jsTrim p1 = "" then none
      else some (jsTrim p0, jsToLower (jsTrim p1))
  | _ => none

/-- The regex `^(0|[1-9]\d*)$` from `isValidBmsId`: the single character
`0`, or a non-zero digit followed by digits. -/
def bmsIdPattern (value : String) : Bool :=
  value = "0" ||
    match value.data with
    | [] => false
    | c :: cs =>
        decide ('1' ≤ c) && decide (c ≤ '9') &&
          cs.all fun d => decide ('0' ≤ d) && decide (d ≤ '9')

/-- `isValidBmsId(value)`: empty is valid; otherwise the regex must match. -/
def isValidBmsId (value : String) : Bool :=
  if value = "" then true
  else bmsIdPattern value

/-- A `(index, name)` column reference of the configuration. -/
structure ColumnRef where
  index : Nat
  name : String
deriving DecidableEq, Repr

/-- `VerifierColumnConfig`: indices of the shared field checks. -/
structure VerifierColumnConfig where
  userPrincipalName : Nat
  mail : Nat
  bmsId : Nat
  localHrId : Nat
deriving DecidableEq, Repr

/-- `VerifierConfig`: the column configuration a verifier is built from.
The optional `extraValidators` field becomes the empty list when absent. -/
structure VerifierConfig where
  columns : VerifierColumnConfig
  requiredColumns : List ColumnRef
  uniqueColumns : List ColumnRef
  extraValidators : List (List Cell → List String) := []

/-- `getRowValidationErrorMessages(row, config)`: the sequence of `push`es of
the source, rendered as appends in the same order. -/
def getRowValidationErrorMessages (row : List Cell) (config : VerifierConfig) :
    List String :=
  let messages : List String := []
  -- Required fields
  let messages := messages ++ config.requiredColumns.filterMap fun rc =>
    if cellValue row rc.index = "" then
      some ("Required field '" ++ rc.name ++ "' is empty")
    else none
  -- Extra validators (e.g. UUID check for Object ID)
  let messages := messages ++
    (config.extraValidators.map fun validator => validator row).flatten
  -- BMS ID or Local HR ID must be present
  let bmsId := cellValue row config.columns.bmsId
  let localHrId := cellValue row config.columns.localHrId
  let messages := messages ++
    (if bmsId = "" ∧ localHrId = "" then
      ["BMS ID and Local HR ID are both empty"] else [])
  let messages := messages ++
    (if bmsId ≠ "" ∧ ¬ isValidBmsId bmsId then
      ["BMS ID must be a number (digits only, no leading zero)"] else [])
  -- UPN format & domain
  let upn := cellValue row config.columns.userPrincipalName
  let mail := cellValue row config.columns.mail
  let messages := messages ++
    (if upn ≠ "" then
      if ¬ isValidEmailFormat upn then ["User Principal Name: invalid format"]
      else
        match parseEmail upn with
        | some upnParsed =>
            if upnParsed.2 ≠ jsToLower UPN_DOMAIN then
              ["User Principal Name: domain must be " ++ UPN_DOMAIN]
            else []
        | none => []
    else [])
  -- Mail format & domain
  let messages := messages ++
    (if mail ≠ "" then
      if ¬ isValidEmailFormat mail then ["Mail: invalid format"]
      else
        match parseEmail mail with
        | some mailParsed =>
            if ¬ (MAIL_DOMAINS.map jsToLower).contains mailParsed.2 then
              ["Mail: domain must be one of " ++ jsJoin ", " MAIL_DOMAINS]
            else []
        | none => []
    else [])
  -- UPN / Mail local part match
  let messages := messages ++
    (if upn ≠ "" ∧ mail ≠ "" then
      match parseEmail upn, parseEmail mail with
      | some upnParsed, some mailParsed =>
          if jsToLower upnParsed.1 ≠ jsToLower mailParsed.1 then
            ["User Principal Name and Mail local part do not match"]
          else []
      | _, _ => []
    else [])
  messages

/-- The per-column grouping of `findRowsWithDuplicateUniqueValues`: the list
of row indices whose cell in `index` is non-empty and lower-cases to `key`
(the source's `valueToRowIndices.get(key)` after its single pass). -/
def groupIndices (rows : List (List Cell)) (index : Nat) (key : String) :
    List Nat :=
  (List.range rows.length).filter fun i =>
    decide (cellValue (rows.getD i []) index ≠ "" ∧
      jsToLower (cellValue (rows.getD i []) index) = key)

/-- Row `i` is flagged by `findRowsWithDuplicateUniqueValues` for one column:
its value there is non-empty and its group has at least two members. -/
def rowFlaggedForColumn (rows : List (List Cell)) (index : Nat) (i : Nat) :
    Bool :=
  decide (cellValue (rows.getD i []) index ≠ "" ∧
    1 < (groupIndices rows index
      (jsToLower (cellValue (rows.getD i []) index))).length)

/-- `findRowsWithDuplicateUniqueValues(rows, uniqueColumns)`: the source
accumulates, per unique column, every member of a group of size ≥ 2 into one
`Set`; a row index lands in that set exactly when some unique column flags
it, so the set (listed in ascending order, the only order observable through
`verify`, which sorts) is this filter of `0 .. rows.length`. -/
def findRowsWithDuplicateUniqueValues (rows : List (List Cell))
    (uniqueColumns : List ColumnRef) : List Nat :=
  (List.range rows.length).filter fun i =>
    uniqueColumns.any fun uc => rowFlaggedForColumn rows uc.index i

/-- `getRowDuplicateMessages(rows, rowIndex, uniqueColumns)`: one message per
unique column whose (non-empty) value in this row occurs in more than one
row. The inner loop of the source collects the matching indices; here it is
the same filter over `0 .. rows.length`. -/
def getRowDuplicateMessages (rows : List (List Cell)) (rowIndex : Nat)
    (uniqueColumns : List ColumnRef) : List String :=
  let row := rows.getD rowIndex []
  uniqueColumns.filterMap fun uc =>
    let value := cellValue row uc.index
    if value = "" then none
    else
      let key := jsToLower value
      let indices := (List.range rows.length).filter fun i =>
        decide (jsToLower (cellValue (rows.getD i []) uc.index) = key)
      if 1 < indices.length then
        some ("Duplicate value in '" ++ uc.name ++ "'")
      else none

/-- `verify(rows)` of the verifier created by `createVerifier(config)`.
The source inserts into a `Set` every row index with validation errors, adds
the duplicate rows, spreads and sorts ascending; the resulting sorted
deduplicated list of indices below `rows.length` is this filter of
`0 .. rows.length`. -/
def verify (config : VerifierConfig) (rows : List (List Cell)) :
    VerifyUsersResult :=
  let totalRows := rows.length
  let duplicateRows := findRowsWithDuplicateUniqueValues rows config.uniqueColumns
  let problemRowIndices := (List.range rows.length).filter fun i =>
    decide (0 < (getRowValidationErrorMessages (rows.getD i []) config).length)
      || duplicateRows.contains i
  let problemCount := problemRowIndices.length
  let okCount := totalRows - problemCount
  let overMaxRows := decide (MAX_DATA_ROWS < totalRows)
  let success := decide (problemCount = 0) && !overMaxRows
  { success := success
    totalRows := totalRows
    okCount := okCount
    problemCount := problemCount
    problemRowIndices := problemRowIndices }

def PROBLEM_MESSAGE_SEPARATOR : String := "\n"

/-- `getRowProblemDescription(rows, rowIndex)` of the verifier created by
`createVerifier(config)`: validation messages, then duplicate messages,
joined by a newline; empty string when the row is absent or clean. -/
def getRowProblemDescription (config : VerifierConfig)
    (rows : List (List Cell)) (rowIndex : Nat) : String :=
  match rows.get? rowIndex with
  | none => ""
  | some row =>
    let validation := getRowValidationErrorMessages row config
    let duplicates := getRowDuplicateMessages rows rowIndex config.uniqueColumns
    let all := validation ++ duplicates
    if all.length = 0 then "" else jsJoin PROBLEM_MESSAGE_SEPARATOR all

end VerifyCore

namespace CreateUsers

open VerifyCore

/-- Column indices of the CreateUsers table (`COL` in `verifyUsers.ts`). -/
def COL_userPrincipalName : Nat := 0
def COL_mail : Nat := 1
def COL_bmsId : Nat := 2
def COL_localHrId : Nat := 3
def COL_firstName : Nat := 5
def COL_lastName : Nat := 6
def COL_displayName : Nat := 7
def COL_country : Nat := 8
def COL_city : Nat := 9

/-- The configuration `createVerifierInstance` is built from in the
config-driven `verifyUsers.ts`. -/
def createConfig : VerifierConfig :=
  { columns :=
      { userPrincipalName := COL_userPrincipalName
        mail := COL_mail
        bmsId := COL_bmsId
        localHrId := COL_localHrId }
    requiredColumns :=
      [ { index := COL_userPrincipalName, name := "User Principal Name" }
      , { index := COL_mail, name := "Mail" }
      , { index := COL_firstName, name := "First Name" }
      , { index := COL_lastName, name := "Last Name" }
      , { index := COL_displayName, name := "Display Name" }
      , { index := COL_country, name := "Country" }
      , { index := COL_city, name := "City" } ]
    uniqueColumns :=
      [ { index := COL_userPrincipalName, name := "User Principal Name" }
      , { index := COL_mail, name := "Mail" }
      , { index := COL_bmsId, name := "BMS ID" }
      , { index := COL_localHrId, name := "Local HR ID" } ]
    extraValidators := [] }

/-- `verifyUsers` exported by the config-driven `verifyUsers.ts`. -/
def verifyUsers (rows : List (List Cell)) : VerifyUsersResult :=
  verify createConfig rows

/-- `getRowProblemDescription` exported by the config-driven `verifyUsers.ts`. -/
def getRowProblemDescription (rows : List (List Cell)) (rowIndex : Nat) : String :=
  VerifyCore.getRowProblemDescription createConfig rows rowIndex

end CreateUsers

namespace UpdateUsers

open VerifyCore

/-- One lower- or upper-case hexadecimal digit (character class `[0-9a-f]`
with the `i` flag). -/
def isHexDigit (c : Char) : Bool :=
  (decide ('0' ≤ c) && decide (c ≤ '9')) ||
    (decide ('a' ≤ c) && decide (c ≤ 'f')) ||
    (decide ('A' ≤ c) && decide (c ≤ 'F'))

/-- The regex `^[0-9a-f]{8}-[0-9a-f]{4}-[0-9a-f]{4}-[0-9a-f]{4}-[0-9a-f]{12}$/i`:
five hyphen-separated hex groups of lengths 8, 4, 4, 4, 12. Splitting on `-`
is faithful because hex digits are never hyphens. -/
def uuidPattern (s : String) : Bool :=
  match jsSplitOn s '-' with
  | [a, b, c, d, e] =>
      decide (a.length = 8) && decide (b.length = 4) && decide (c.length = 4) &&
        decide (d.length = 4) && decide (e.length = 12) &&
        a.data.all isHexDigit && b.data.all isHexDigit && c.data.all isHexDigit &&
        d.data.all isHexDigit && e.data.all isHexDigit
  | _ => false

/-- Column indices of the UpdateUsers table (`COL` in the config-driven
update module: Object ID prepended, rest shifted by one). -/
def COL_objectId : Nat := 0
def COL_userPrincipalName : Nat := 1
def COL_mail : Nat := 2
def COL_bmsId : Nat := 3
def COL_localHrId : Nat := 4
def COL_firstName : Nat := 6
def COL_lastName : Nat := 7
def COL_displayName : Nat := 8
def COL_country : Nat := 9
def COL_city : Nat := 10

/-- The single extra validator of the update configuration: Object ID, when
present, must match the UUID pattern. -/
def objectIdValidator (row : List Cell) : List String :=
  let objectId := cellValue row COL_objectId
  if objectId ≠ "" ∧ ¬ uuidPattern objectId then
    ["Object ID must be a valid UUID"]
  else []

/-- The configuration `updateVerifierInstance` is built from. -/
def updateConfig : VerifierConfig :=
  { columns :=
      { userPrincipalName := COL_userPrincipalName
        mail := COL_mail
        bmsId := COL_bmsId
        localHrId := COL_localHrId }
    requiredColumns :=
      [ { index := COL_objectId, name := "Object ID" }
      , { index := COL_userPrincipalName, name := "User Principal Name" }
      , { index := COL_mail, name := "Mail" }
      , { index := COL_firstName, name := "First Name" }
      , { index := COL_lastName, name := "Last Name" }
      , { index := COL_displayName, name := "Display Name" }
      , { index := COL_country, name := "Country" }
      , { index := COL_city, name := "City" } ]
    uniqueColumns :=
      [ { index := COL_objectId, name := "Object ID" }
      , { index := COL_userPrincipalName, name := "User Principal Name" }
      , { index := COL_mail, name := "Mail" }
      , { index := COL_bmsId, name := "BMS ID" }
      , { index := COL_localHrId, name := "Local HR ID" } ]
    extraValidators := [objectIdValidator] }

/-- `verifyUpdateUsers` exported by the config-driven update module. -/
def verifyUpdateUsers (rows : List (List Cell)) : VerifyUsersResult :=
  verify updateConfig rows

/-- `getUpdateRowProblemDescription` exported by the config-driven update
module. -/
def getUpdateRowProblemDescription (rows : List (List Cell)) (rowIndex : Nat) :
    String :=
  VerifyCore.getRowProblemDescription updateConfig rows rowIndex

end UpdateUsers

/-!
## Legacy standalone validators

The repository also contains the validators as they were written before the
consolidation into `verifyCore`: a standalone `verifyUsers.ts` and a
standalone `verifyUpdateUsers.ts`, each with private copies of `cellValue`,
`isValidEmailFormat`, `parseEmail` and `isValidBmsId` that are character for
character the ones of `verifyCore`; we therefore reuse the shared embeddings
of those helpers, and of the duplicate-detection loops (also identical, the
unique-column list being the only free variable).
-/

namespace LegacyCreate

open VerifyCore

def REQUIRED_COLUMNS : List ColumnRef :=
  [ { index := 0, name := "User Principal Name" }
  , { index := 1, name := "Mail" }
  , { index := 5, name := "First Name" }
  , { index := 6, name := "Last Name" }
  , { index := 7, name := "Display Name" }
  , { index := 8, name := "Country" }
  , { index := 9, name := "City" } ]

def UNIQUE_COLUMNS : List ColumnRef :=
  [ { index := 0, name := "User Principal Name" }
  , { index := 1, name := "Mail" }
  , { index := 2, name := "BMS ID" }
  , { index := 3, name := "Local HR ID" } ]

/-- Legacy `getRowValidationErrorMessages(row)`: hard-wired columns, no
extra-validator stage. -/
def getRowValidationErrorMessages (row : List Cell) : List String :=
  let messages : List String := []
  let messages := messages ++ REQUIRED_COLUMNS.filterMap fun rc =>
    if cellValue row rc.index = "" then
      some ("Required field '" ++ rc.name ++ "' is empty")
    else none
  let bmsId := cellValue row 2
  let localHrId := cellValue row 3
  let messages := messages ++
    (if bmsId = "" ∧ localHrId = "" then
      ["BMS ID and Local HR ID are both empty"] else [])
  let messages := messages ++
    (if bmsId ≠ "" ∧ ¬ isValidBmsId bmsId then
      ["BMS ID must be a number (digits only, no leading zero)"] else [])
  let upn := cellValue row 0
  let mail := cellValue row 1
  let messages := messages ++
    (if upn ≠ "" then
      if ¬ isValidEmailFormat upn then ["User Principal Name: invalid format"]
      else
        match parseEmail upn with
        | some upnParsed =>
            if upnParsed.2 ≠ jsToLower UPN_DOMAIN then
              ["User Principal Name: domain must be " ++ UPN_DOMAIN]
            else []
        | none => []
    else [])
  let messages := messages ++
    (if mail ≠ "" then
      if ¬ isValidEmailFormat mail then ["Mail: invalid format"]
      else
        match parseEmail mail with
        | some mailParsed =>
            if ¬ (MAIL_DOMAINS.map jsToLower).contains mailParsed.2 then
              ["Mail: domain must be one of " ++ jsJoin ", " MAIL_DOMAINS]
            else []
        | none => []
    else [])
  let messages := messages ++
    (if upn ≠ "" ∧ mail ≠ "" then
      match parseEmail upn, parseEmail mail with
      | some upnParsed, some mailParsed =>
          if jsToLower upnParsed.1 ≠ jsToLower mailParsed.1 then
            ["User Principal Name and Mail local part do not match"]
          else []
      | _, _ => []
    else [])
  messages

/-- Legacy `verifyUsers(rows)`. -/
def verifyUsers (rows : List (List Cell)) : VerifyUsersResult :=
  let totalRows := rows.length
  let duplicateRows := VerifyCore.findRowsWithDuplicateUniqueValues rows UNIQUE_COLUMNS
  let problemRowIndices := (List.range rows.length).filter fun i =>
    decide (0 < (getRowValidationErrorMessages (rows.getD i [])).length)
      || duplicateRows.contains i
  let problemCount := problemRowIndices.length
  let okCount := totalRows - problemCount
  let overMaxRows := decide (MAX_DATA_ROWS < totalRows)
  let success := decide (problemCount = 0) && !overMaxRows
  { success := success
    totalRows := totalRows
    okCount := okCount
    problemCount := problemCount
    problemRowIndices := problemRowIndices }

/-- Legacy `getRowProblemDescription(rows, rowIndex)`. -/
def getRowProblemDescription (rows : List (List Cell)) (rowIndex : Nat) :
    String :=
  match rows.get? rowIndex with
  | none => ""
  | some row =>
    let validation := getRowValidationErrorMessages row
    let duplicates := VerifyCore.getRowDuplicateMessages rows rowIndex UNIQUE_COLUMNS
    let all := validation ++ duplicates
    if all.length = 0 then "" else jsJoin PROBLEM_MESSAGE_SEPARATOR all

end LegacyCreate

namespace LegacyUpdate

open VerifyCore

def REQUIRED_COLUMNS : List ColumnRef :=
  [ { index := 0, name := "Object ID" }
  , { index := 1, name := "User Principal Name" }
  , { index := 2, name := "Mail" }
  , { index := 6, name := "First Name" }
  , { index := 7, name := "Last Name" }
  , { index := 8, name := "Display Name" }
  , { index := 9, name := "Country" }
  , { index := 10, name := "City" } ]

def UNIQUE_COLUMNS : List ColumnRef :=
  [ { index := 0, name := "Object ID" }
  , { index := 1, name := "User Principal Name" }
  , { index := 2, name := "Mail" }
  , { index := 3, name := "BMS ID" }
  , { index := 4, name := "Local HR ID" } ]

/-- Legacy update `getRowValidationErrorMessages(row)`: hard-wired columns,
UUID check written inline right after the required-field stage. -/
def getRowValidationErrorMessages (row : List Cell) : List String :=
  let messages : List String := []
  -- Required fields
  let messages := messages ++ REQUIRED_COLUMNS.filterMap fun rc =>
    if cellValue row rc.index = "" then
      some ("Required field '" ++ rc.name ++ "' is empty")
    else none
  -- Object ID must be a valid UUID
  let objectId := cellValue row 0
  let messages := messages ++
    (if objectId ≠ "" ∧ ¬ UpdateUsers.uuidPattern objectId then
      ["Object ID must be a valid UUID"] else [])
  -- BMS ID or Local HR ID must be present
  let bmsId := cellValue row 3
  let localHrId := cellValue row 4
  let messages := messages ++
    (if bmsId = "" ∧ localHrId = "" then
      ["BMS ID and Local HR ID are both empty"] else [])
  let messages := messages ++
    (if bmsId ≠ "" ∧ ¬ isValidBmsId bmsId then
      ["BMS ID must be a number (digits only, no leading zero)"] else [])
  -- UPN format & domain
  let upn := cellValue row 1
  let mail := cellValue row 2
  let messages := messages ++
    (if upn ≠ "" then
      if ¬ isValidEmailFormat upn then ["User Principal Name: invalid format"]
      else
        match parseEmail upn with
        | some upnParsed =>
            if upnParsed.2 ≠ jsToLower UPN_DOMAIN then
              ["User Principal Name: domain must be " ++ UPN_DOMAIN]
            else []
        | none => []
    else [])
  -- Mail format & domain
  let messages := messages ++
    (if mail ≠ "" then
      if ¬ isValidEmailFormat mail then ["Mail: invalid format"]
      else
        match parseEmail mail with
        | some mailParsed =>
            if ¬ (MAIL_DOMAINS.map jsToLower).contains mailParsed.2 then
              ["Mail: domain must be one of " ++ jsJoin ", " MAIL_DOMAINS]
            else []
        | none => []
    else [])
  -- UPN / Mail local part match
  let messages := messages ++
    (if upn ≠ "" ∧ mail ≠ "" then
      match parseEmail upn, parseEmail mail with
      | some upnParsed, some mailParsed =>
          if jsToLower upnParsed.1 ≠ jsToLower mailParsed.1 then
            ["User Principal Name and Mail local part do not match"]
          else []
      | _, _ => []
    else [])
  messages

/-- Legacy `verifyUpdateUsers(rows)`. -/
def verifyUpdateUsers (rows : List (List Cell)) : VerifyUsersResult :=
  let totalRows := rows.length
  let duplicateRows := VerifyCore.findRowsWithDuplicateUniqueValues rows UNIQUE_COLUMNS
  let problemRowIndices := (List.range rows.length).filter fun i =>
    decide (0 < (getRowValidationErrorMessages (rows.getD i [])).length)
      || duplicateRows.contains i
  let problemCount := problemRowIndices.length
  let okCount := totalRows - problemCount
  let overMaxRows := decide (MAX_DATA_ROWS < totalRows)
  let success := decide (problemCount = 0) && !overMaxRows
  { success := success
    totalRows := totalRows
    okCount := okCount
    problemCount := problemCount
    problemRowIndices := problemRowIndices }

/-- Legacy `getUpdateRowProblemDescription(rows, rowIndex)`. -/
def getUpdateRowProblemDescription (rows : List (List Cell)) (rowIndex : Nat) :
    String :=
  match rows.get? rowIndex with
  | none => ""
  | some row =>
    let validation := getRowValidationErrorMessages row
    let duplicates := VerifyCore.getRowDuplicateMessages rows rowIndex UNIQUE_COLUMNS
    let all := validation ++ duplicates
    if all.length = 0 then "" else jsJoin PROBLEM_MESSAGE_SEPARATOR all

end LegacyUpdate

/-!
## The specified evaluation pipeline (Row Evaluator, spec §4.2)

The specification describes the row evaluator as a fixed ordered pipeline of
seven message categories. Each category is defined here on its own, following
the specification's wording, so that the pipeline claim can compare the
engine's evaluator with their concatenation.
-/

namespace RowEvaluatorSpec

open VerifyCore

/-- Category 1: one message per empty required column, in configuration
order, formatted `Required field '<name>' is empty`. -/
def requiredFieldMessages (row : List Cell) (config : VerifierConfig) :
    List String :=
  config.requiredColumns.filterMap fun rc =>
    if cellValue row rc.index = "" then
      some ("Required field '" ++ rc.name ++ "' is empty")
    else none

/-- Category 2: the extra validators' messages, in list order, verbatim. -/
def extraValidatorMessages (row : List Cell) (config : VerifierConfig) :
    List String :=
  (config.extraValidators.map fun validator => validator row).flatten

/-- Category 3: the either-or message, emitted when both the
numeric-identifier (BMS ID) column and the secondary-identifier
(Local HR ID) column are empty. -/
def eitherOrMessages (row : List Cell) (config : VerifierConfig) :
    List String :=
  if cellValue row config.columns.bmsId = "" ∧
      cellValue row config.columns.localHrId = "" then
    ["BMS ID and Local HR ID are both empty"]
  else []

/-- Category 4: the numeric-identifier format message, emitted when the
BMS ID column is non-empty but fails the digits-only/no-leading-zero rule. -/
def numericFormatMessages (row : List Cell) (config : VerifierConfig) :
    List String :=
  if cellValue row config.columns.bmsId ≠ "" ∧
      ¬ isValidBmsId (cellValue row config.columns.bmsId) then
    ["BMS ID must be a number (digits only, no leading zero)"]
  else []

/-- Category 5: identity-address (User Principal Name) format and domain
messages: empty → none; malformed → invalid-format; well-formed but with a
domain other than the single required one → domain-mismatch. -/
def identityAddressMessages (row : List Cell) (config : VerifierConfig) :
    List String :=
  let upn := cellValue row config.columns.userPrincipalName
  if upn ≠ "" then
    if ¬ isValidEmailFormat upn then ["User Principal Name: invalid format"]
    else
      match parseEmail upn with
      | some upnParsed =>
          if upnParsed.2 ≠ jsToLower UPN_DOMAIN then
            ["User Principal Name: domain must be " ++ UPN_DOMAIN]
          else []
      | none => []
  else []

/-- Category 6: contact-address (Mail) format and domain messages, the
domain checked against the configured allow-list, the message naming all
allowed domains joined by `, `. -/
def contactAddressMessages (row : List Cell) (config : VerifierConfig) :
    List String :=
  let mail := cellValue row config.columns.mail
  if mail ≠ "" then
    if ¬ isValidEmailFormat mail then ["Mail: invalid format"]
    else
      match parseEmail mail with
      | some mailParsed =>
          if ¬ (MAIL_DOMAINS.map jsToLower).contains mailParsed.2 then
            ["Mail: domain must be one of " ++ jsJoin ", " MAIL_DOMAINS]
          else []
      | none => []
  else []

/-- Category 7: the local-part consistency message, evaluated only when both
address columns are non-empty and both parse; emitted when their local parts
differ case-insensitively. -/
def localPartConsistencyMessages (row : List Cell) (config : VerifierConfig) :
    List String :=
  let upn := cellValue row config.columns.userPrincipalName
  let mail := cellValue row config.columns.mail
  if upn ≠ "" ∧ mail ≠ "" then
    match parseEmail upn, parseEmail mail with
    | some upnParsed, some mailParsed =>
        if jsToLower upnParsed.1 ≠ jsToLower mailParsed.1 then
          ["User Principal Name and Mail local part do not match"]
        else []
    | _, _ => []
  else []

end RowEvaluatorSpec

namespace VerifyCore

open RowEvaluatorSpec

/-- The engine's row evaluator is exactly the specified seven-stage ordered
pipeline. -/
lemma rowMessages_decomposition (row : List Cell) (config : VerifierConfig) :
    getRowValidationErrorMessages row config =
      requiredFieldMessages row config ++
      extraValidatorMessages row config ++
      eitherOrMessages row config ++
      numericFormatMessages row config ++
      identityAddressMessages row config ++
      contactAddressMessages row config ++
      localPartConsistencyMessages row config := by
  unfold getRowValidationErrorMessages requiredFieldMessages
    extraValidatorMessages eitherOrMessages numericFormatMessages
    identityAddressMessages contactAddressMessages
    localPartConsistencyMessages
  simp only [List.nil_append, List.append_assoc]

end VerifyCore

/-!
## A concrete three-row create batch

Row 0 is fully valid, row 1 has an empty display-name cell, row 2 carries
row 0's User Principal Name. Used to settle the specified scenario.
-/

namespace Scenario3Row

open VerifyCore

/-- Row 0: fully valid (UPN/Mail local parts match, BMS ID present). -/
def row0 : List Cell :=
  [Cell.str "a.b@majorel.com", Cell.str "a.b@majorel.com", Cell.str "1",
   Cell.str "", Cell.str "", Cell.str "A", Cell.str "B", Cell.str "A B",
   Cell.str "DE", Cell.str "Berlin"]

/-- Row 1: valid except for an empty display-name cell (column 7). -/
def row1 : List Cell :=
  [Cell.str "c.d@majorel.com", Cell.str "c.d@majorel.com", Cell.str "2",
   Cell.str "", Cell.str "", Cell.str "C", Cell.str "D", Cell.str "",
   Cell.str "DE", Cell.str "Berlin"]

/-- Row 2: valid in isolation, but shares row 0's User Principal Name. -/
def row2 : List Cell :=
  [Cell.str "a.b@majorel.com", Cell.str "a.b@mj.teleperformance.com",
   Cell.str "3", Cell.str "", Cell.str "", Cell.str "E", Cell.str "F",
   Cell.str "E F", Cell.str "DE", Cell.str "Berlin"]

/-- The three-row batch of the scenario. -/
def batch : List (List Cell) := [row0, row1, row2]

end Scenario3Row

/-!
## Supporting lemmas
-/

namespace VerifyCore

/-- Lower-casing the empty string gives the empty string, and conversely. -/
lemma jsToLower_eq_empty_iff {s : String} : jsToLower s = "" ↔ s = "" := by
  constructor
  · intro h
    have hd : s.data.map Char.toLower = ([] : List Char) := congrArg String.data h
    exact String.ext (List.map_eq_nil_iff.mp hd)
  · rintro rfl; rfl

/-- A string starting with the literal `Required field '` is not empty. -/
lemma requiredMessage_ne_empty (name : String) :
    ("Required field '" ++ name ++ "' is empty") ≠ "" := by
  intro h
  have hd := congrArg String.data h
  rw [String.data_append, String.data_append] at hd
  rcases List.append_eq_nil.mp (List.append_eq_nil.mp hd).1 with ⟨h1, -⟩
  exact absurd (String.ext h1) (by decide)

/-- A duplicate-value message is not empty. -/
lemma duplicateMessage_ne_empty (name : String) :
    ("Duplicate value in '" ++ name ++ "'") ≠ "" := by
  intro h
  have hd := congrArg String.data h
  rw [String.data_append, String.data_append] at hd
  rcases List.append_eq_nil.mp (List.append_eq_nil.mp hd).1 with ⟨h1, -⟩
  exact absurd (String.ext h1) (by decide)

/-- Joining a non-empty list of non-empty strings by a newline is non-empty. -/
lemma jsJoin_ne_empty :
    ∀ {l : List String}, l ≠ [] → (∀ m ∈ l, m ≠ "") → jsJoin "\n" l ≠ ""
  | [], hne, _ => absurd rfl hne
  | [x], _, h => by simpa [jsJoin] using h x (by simp)
  | x :: y :: t, _, _ => by
      intro hc
      have hd := congrArg String.data hc
      rw [show jsJoin "\n" (x :: y :: t) = x ++ "\n" ++ jsJoin "\n" (y :: t) from rfl,
        String.data_append, String.data_append] at hd
      rcases List.append_eq_nil.mp (List.append_eq_nil.mp hd).1 with ⟨-, h2⟩
      exact absurd (String.ext h2) (by decide)

/-- A list with at least two entries, none repeated, has a member different
from any given value. -/
lemma exists_other_mem {l : List Nat} (hnd : l.Nodup) (hlen : 1 < l.length)
    (i : Nat) : ∃ j ∈ l, j ≠ i := by
  match l, hnd, hlen with
  | a :: b :: t, hnd, _ =>
    have hab : a ≠ b := by
      have h1 := (List.nodup_cons.mp hnd).1
      intro h
      exact h1 (h ▸ List.mem_cons_self b t)
    by_cases hia : i = a
    · exact ⟨b, by simp, fun h => hab (hia ▸ h).symm⟩
    · exact ⟨a, by simp, fun h => hia h.symm⟩

/-- Two distinct members force a length of at least two. -/
lemma one_lt_length_of_two_mem {l : List Nat} {i j : Nat} (hi : i ∈ l)
    (hj : j ∈ l) (hne : i ≠ j) : 1 < l.length := by
  have hsub : ({i, j} : Finset Nat) ⊆ l.toFinset := by
    intro x hx
    simp only [Finset.mem_insert, Finset.mem_singleton] at hx
    rcases hx with rfl | rfl <;> simpa [List.mem_toFinset]
  calc 1 < ({i, j} : Finset Nat).card := by rw [Finset.card_pair hne]; omega
    _ ≤ l.toFinset.card := Finset.card_le_card hsub
    _ ≤ l.length := l.toFinset_card_le

end VerifyCore

namespace VerifyCore

/-- Membership in a duplicate group. -/
lemma mem_groupIndices {rows : List (List Cell)} {index i : Nat} {key : String} :
    i ∈ groupIndices rows index key ↔
      i < rows.length ∧ cellValue (rows.getD i []) index ≠ "" ∧
        jsToLower (cellValue (rows.getD i []) index) = key := by
  simp [groupIndices, List.mem_filter, List.mem_range, and_assoc]

lemma nodup_groupIndices (rows : List (List Cell)) (index : Nat) (key : String) :
    (groupIndices rows index key).Nodup :=
  (List.nodup_range rows.length).filter _

/-- A row is flagged for a unique column exactly when its value there is
non-empty and equal, after lower-casing, to the value of another row. -/
lemma rowFlaggedForColumn_iff {rows : List (List Cell)} {index i : Nat}
    (hi : i < rows.length) :
    rowFlaggedForColumn rows index i = true ↔
      cellValue (rows.getD i []) index ≠ "" ∧
        ∃ j, j < rows.length ∧ j ≠ i ∧
          jsToLower (cellValue (rows.getD j []) index) =
            jsToLower (cellValue (rows.getD i []) index) := by
  rw [rowFlaggedForColumn, decide_eq_true_iff]
  constructor
  · rintro ⟨hne, hlen⟩
    refine ⟨hne, ?_⟩
    obtain ⟨j, hjmem, hji⟩ :=
      exists_other_mem (nodup_groupIndices rows index _) hlen i
    obtain ⟨hj, -, hkey⟩ := mem_groupIndices.mp hjmem
    exact ⟨j, hj, hji, hkey⟩
  · rintro ⟨hne, j, hj, hji, hkey⟩
    refine ⟨hne, ?_⟩
    have hmi : i ∈ groupIndices rows index
        (jsToLower (cellValue (rows.getD i []) index)) :=
      mem_groupIndices.mpr ⟨hi, hne, rfl⟩
    have hvj : cellValue (rows.getD j []) index ≠ "" := by
      intro hempty
      rw [hempty] at hkey
      exact hne (jsToLower_eq_empty_iff.mp hkey.symm)
    have hmj : j ∈ groupIndices rows index
        (jsToLower (cellValue (rows.getD i []) index)) :=
      mem_groupIndices.mpr ⟨hj, hvj, hkey⟩
    exact one_lt_length_of_two_mem hmj hmi hji

/-- Membership in the duplicate-row set. -/
lemma mem_findRowsWithDuplicateUniqueValues {rows : List (List Cell)}
    {uniqueColumns : List ColumnRef} {i : Nat} :
    i ∈ findRowsWithDuplicateUniqueValues rows uniqueColumns ↔
      i < rows.length ∧ ∃ uc ∈ uniqueColumns,
        cellValue (rows.getD i []) uc.index ≠ "" ∧
          ∃ j, j < rows.length ∧ j ≠ i ∧
            jsToLower (cellValue (rows.getD j []) uc.index) =
              jsToLower (cellValue (rows.getD i []) uc.index) := by
  rw [findRowsWithDuplicateUniqueValues, List.mem_filter, List.mem_range,
    List.any_eq_true]
  constructor
  · rintro ⟨hi, uc, hucmem, hflag⟩
    exact ⟨hi, uc, hucmem, (rowFlaggedForColumn_iff hi).mp hflag⟩
  · rintro ⟨hi, uc, hucmem, hflag⟩
    exact ⟨hi, uc, hucmem, (rowFlaggedForColumn_iff hi).mpr hflag⟩

end VerifyCore

namespace VerifyCore

/-- With a non-empty key, the unfiltered index scan of
`getRowDuplicateMessages` collects exactly the group of that key. -/
lemma dupScan_eq_groupIndices {rows : List (List Cell)} {index : Nat}
    {key : String} (hkey : key ≠ "") :
    ((List.range rows.length).filter fun i =>
        decide (jsToLower (cellValue (rows.getD i []) index) = key)) =
      groupIndices rows index key := by
  rw [groupIndices]
  refine List.filter_congr fun i _ => ?_
  by_cases hv : cellValue (rows.getD i []) index = ""
  · have h1 : decide (jsToLower (cellValue (rows.getD i []) index) = key)
        = false := by
      rw [decide_eq_false_iff_not, hv]
      exact fun h => hkey h.symm
    have h2 : decide (cellValue (rows.getD i []) index ≠ "" ∧
        jsToLower (cellValue (rows.getD i []) index) = key) = false := by
      rw [decide_eq_false_iff_not]
      rintro ⟨hne, -⟩
      exact hne hv
    rw [h1, h2]
  · refine decide_eq_decide.mpr ?_
    exact ⟨fun h => ⟨hv, h⟩, And.right⟩

/-- The per-column entry of `getRowDuplicateMessages`, re-expressed through
the flag of the batch duplicate detector. -/
lemma dupEntry_eq (rows : List (List Cell)) (i : Nat) (uc : ColumnRef) :
    (if cellValue (rows.getD i []) uc.index = "" then none
     else if 1 < ((List.range rows.length).filter fun j =>
         decide (jsToLower (cellValue (rows.getD j []) uc.index) =
           jsToLower (cellValue (rows.getD i []) uc.index))).length then
       some ("Duplicate value in '" ++ uc.name ++ "'")
     else none) =
    if rowFlaggedForColumn rows uc.index i then
      some ("Duplicate value in '" ++ uc.name ++ "'")
    else none := by
  by_cases hv : cellValue (rows.getD i []) uc.index = ""
  · rw [if_pos hv]
    have hflag : rowFlaggedForColumn rows uc.index i = false := by
      rw [rowFlaggedForColumn, decide_eq_false_iff_not]
      rintro ⟨hne, -⟩
      exact hne hv
    rw [hflag]
    simp
  · rw [if_neg hv]
    have hkey : jsToLower (cellValue (rows.getD i []) uc.index) ≠ "" :=
      fun h => hv (jsToLower_eq_empty_iff.mp h)
    rw [dupScan_eq_groupIndices hkey]
    by_cases hlen : 1 < (groupIndices rows uc.index
        (jsToLower (cellValue (rows.getD i []) uc.index))).length
    · rw [if_pos hlen]
      have hflag : rowFlaggedForColumn rows uc.index i = true := by
        rw [rowFlaggedForColumn, decide_eq_true_iff]
        exact ⟨hv, hlen⟩
      rw [hflag]
      simp
    · rw [if_neg hlen]
      have hflag : rowFlaggedForColumn rows uc.index i = false := by
        rw [rowFlaggedForColumn, decide_eq_false_iff_not]
        rintro ⟨-, hl⟩
        exact hlen hl
      rw [hflag]
      simp

/-- `getRowDuplicateMessages` as one message per flagging unique column. -/
lemma dupMessages_eq (rows : List (List Cell)) (i : Nat)
    (uniqueColumns : List ColumnRef) :
    getRowDuplicateMessages rows i uniqueColumns =
      uniqueColumns.filterMap fun uc =>
        if rowFlaggedForColumn rows uc.index i then
          some ("Duplicate value in '" ++ uc.name ++ "'")
        else none := by
  rw [getRowDuplicateMessages]
  simp only [dupEntry_eq]

/-- The duplicate messages of a row are non-nil exactly when some unique
column flags it. -/
lemma dupMessages_ne_nil_iff {rows : List (List Cell)} {i : Nat}
    {uniqueColumns : List ColumnRef} :
    getRowDuplicateMessages rows i uniqueColumns ≠ [] ↔
      ∃ uc ∈ uniqueColumns, rowFlaggedForColumn rows uc.index i = true := by
  rw [dupMessages_eq, Ne, List.filterMap_eq_nil_iff]
  push_neg
  constructor
  · rintro ⟨uc, hmem, hne⟩
    refine ⟨uc, hmem, ?_⟩
    by_contra hflag
    rw [Bool.not_eq_true] at hflag
    rw [hflag] at hne
    simp at hne
  · rintro ⟨uc, hmem, hflag⟩
    refine ⟨uc, hmem, ?_⟩
    rw [hflag]
    simp

/-- Every duplicate message names one of the unique columns. -/
lemma mem_getRowDuplicateMessages {rows : List (List Cell)} {i : Nat}
    {uniqueColumns : List ColumnRef} {m : String}
    (h : m ∈ getRowDuplicateMessages rows i uniqueColumns) :
    ∃ uc ∈ uniqueColumns, m = "Duplicate value in '" ++ uc.name ++ "'" := by
  rw [dupMessages_eq] at h
  simp only [List.mem_filterMap] at h
  obtain ⟨uc, hmem, hm⟩ := h
  refine ⟨uc, hmem, ?_⟩
  split at hm
  · exact (Option.some_inj.mp hm).symm
  · cases hm

end VerifyCore

namespace VerifyCore

open RowEvaluatorSpec

lemma mem_requiredFieldMessages {m : String} {row : List Cell}
    {config : VerifierConfig} (h : m ∈ requiredFieldMessages row config) :
    ∃ rc ∈ config.requiredColumns,
      m = "Required field '" ++ rc.name ++ "' is empty" := by
  rw [requiredFieldMessages] at h
  simp only [List.mem_filterMap] at h
  obtain ⟨rc, hmem, hm⟩ := h
  refine ⟨rc, hmem, ?_⟩
  split at hm
  · exact (Option.some_inj.mp hm).symm
  · cases hm

lemma mem_extraValidatorMessages {m : String} {row : List Cell}
    {config : VerifierConfig} (h : m ∈ extraValidatorMessages row config) :
    ∃ v ∈ config.extraValidators, m ∈ v row := by
  rw [extraValidatorMessages] at h
  simp only [List.mem_flatten, List.mem_map] at h
  obtain ⟨l, ⟨v, hv, rfl⟩, hm⟩ := h
  exact ⟨v, hv, hm⟩

lemma mem_eitherOrMessages {m : String} {row : List Cell}
    {config : VerifierConfig} (h : m ∈ eitherOrMessages row config) :
    m = "BMS ID and Local HR ID are both empty" := by
  rw [eitherOrMessages] at h
  split at h
  · simpa using h
  · cases h

lemma mem_numericFormatMessages {m : String} {row : List Cell}
    {config : VerifierConfig} (h : m ∈ numericFormatMessages row config) :
    m = "BMS ID must be a number (digits only, no leading zero)" := by
  rw [numericFormatMessages] at h
  split at h
  · simpa using h
  · cases h

lemma numericFormatMessages_mem_iff {row : List Cell}
    {config : VerifierConfig} :
    "BMS ID must be a number (digits only, no leading zero)" ∈
        numericFormatMessages row config ↔
      cellValue row config.columns.bmsId ≠ "" ∧
        isValidBmsId (cellValue row config.columns.bmsId) = false := by
  rw [numericFormatMessages]
  split
  · next hcond =>
    simp only [List.mem_singleton, true_iff]
    exact ⟨hcond.1, by simpa using hcond.2⟩
  · next hcond =>
    simp only [List.not_mem_nil, false_iff]
    intro hc
    exact hcond ⟨hc.1, by simp [hc.2]⟩

lemma mem_identityAddressMessages {m : String} {row : List Cell}
    {config : VerifierConfig} (h : m ∈ identityAddressMessages row config) :
    m = "User Principal Name: invalid format" ∨
      m = "User Principal Name: domain must be " ++ UPN_DOMAIN := by
  rw [identityAddressMessages] at h
  split at h
  · split at h
    · exact Or.inl (by simpa using h)
    · split at h
      · split at h
        · exact Or.inr (by simpa using h)
        · cases h
      · cases h
  · cases h

lemma mem_contactAddressMessages {m : String} {row : List Cell}
    {config : VerifierConfig} (h : m ∈ contactAddressMessages row config) :
    m = "Mail: invalid format" ∨
      m = "Mail: domain must be one of " ++ jsJoin ", " MAIL_DOMAINS := by
  rw [contactAddressMessages] at h
  split at h
  · split at h
    · exact Or.inl (by simpa using h)
    · split at h
      · split at h
        · exact Or.inr (by simpa using h)
        · cases h
      · cases h
  · cases h

lemma mem_localPartConsistencyMessages {m : String} {row : List Cell}
    {config : VerifierConfig}
    (h : m ∈ localPartConsistencyMessages row config) :
    m = "User Principal Name and Mail local part do not match" := by
  rw [localPartConsistencyMessages] at h
  split at h
  · split at h
    · split at h
      · simpa using h
      · cases h
    · cases h
  · cases h

end VerifyCore

namespace VerifyCore

lemma get?_eq_getD {rows : List (List Cell)} {i : Nat} (hi : i < rows.length) :
    rows.get? i = some (rows.getD i []) := by
  rw [List.getD_eq_getElem?_getD, List.get?_eq_getElem?,
    List.getElem?_eq_getElem hi]
  rfl

lemma mem_findRows_iff_flag {rows : List (List Cell)}
    {uniqueColumns : List ColumnRef} {i : Nat} :
    i ∈ findRowsWithDuplicateUniqueValues rows uniqueColumns ↔
      i < rows.length ∧
        ∃ uc ∈ uniqueColumns, rowFlaggedForColumn rows uc.index i = true := by
  rw [findRowsWithDuplicateUniqueValues, List.mem_filter, List.mem_range,
    List.any_eq_true]

lemma mem_verify_problemRowIndices {config : VerifierConfig}
    {rows : List (List Cell)} {i : Nat} :
    i ∈ (verify config rows).problemRowIndices ↔
      i < rows.length ∧
        (getRowValidationErrorMessages (rows.getD i []) config ≠ [] ∨
          i ∈ findRowsWithDuplicateUniqueValues rows config.uniqueColumns) := by
  rw [verify]
  simp only [List.mem_filter, List.mem_range, Bool.or_eq_true,
    decide_eq_true_iff, List.length_pos, List.elem_iff]

lemma validationMessage_ne_empty {row : List Cell} {config : VerifierConfig}
    (hextra : ∀ v ∈ config.extraValidators, ∀ m ∈ v row, m ≠ "")
    {m : String} (hm : m ∈ getRowValidationErrorMessages row config) :
    m ≠ "" := by
  rw [rowMessages_decomposition] at hm
  simp only [List.mem_append] at hm
  rcases hm with ((((((h | h) | h) | h) | h) | h) | h)
  · obtain ⟨rc, -, rfl⟩ := mem_requiredFieldMessages h
    exact requiredMessage_ne_empty rc.name
  · obtain ⟨v, hv, hmv⟩ := mem_extraValidatorMessages h
    exact hextra v hv m hmv
  · rw [mem_eitherOrMessages h]; decide
  · rw [mem_numericFormatMessages h]; decide
  · rcases mem_identityAddressMessages h with rfl | rfl <;> decide
  · rcases mem_contactAddressMessages h with rfl | rfl <;> decide
  · rw [mem_localPartConsistencyMessages h]; decide

lemma description_ne_empty_iff {config : VerifierConfig}
    {rows : List (List Cell)} {i : Nat}
    (hextra : ∀ v ∈ config.extraValidators, ∀ row, ∀ m ∈ v row, m ≠ "")
    (hi : i < rows.length) :
    getRowProblemDescription config rows i ≠ "" ↔
      (getRowValidationErrorMessages (rows.getD i []) config ≠ [] ∨
        getRowDuplicateMessages rows i config.uniqueColumns ≠ []) := by
  rw [getRowProblemDescription, get?_eq_getD hi]
  dsimp only
  by_cases hnil : getRowValidationErrorMessages (rows.getD i []) config ++
      getRowDuplicateMessages rows i config.uniqueColumns = []
  · rw [hnil]
    obtain ⟨h1, h2⟩ := List.append_eq_nil.mp hnil
    rw [h1, h2]
    simp
  · rw [if_neg (by simpa [List.length_eq_zero] using hnil)]
    have hne : jsJoin PROBLEM_MESSAGE_SEPARATOR
        (getRowValidationErrorMessages (rows.getD i []) config ++
          getRowDuplicateMessages rows i config.uniqueColumns) ≠ "" := by
      refine jsJoin_ne_empty hnil ?_
      intro m hm
      rcases List.mem_append.mp hm with h | h
      · exact validationMessage_ne_empty (fun v hv => hextra v hv _) h
      · obtain ⟨uc, -, rfl⟩ := mem_getRowDuplicateMessages h
        exact duplicateMessage_ne_empty uc.name
    refine ⟨fun _ => ?_, fun _ => hne⟩
    by_contra hcon
    push_neg at hcon
    exact hnil (by rw [hcon.1, hcon.2]; rfl)

/-- Membership in the problem set coincides with a non-empty diagnostic,
for any configuration whose extra validators never emit empty messages. -/
lemma problem_iff_description {config : VerifierConfig}
    (hextra : ∀ v ∈ config.extraValidators, ∀ row, ∀ m ∈ v row, m ≠ "")
    {rows : List (List Cell)} {i : Nat} (hi : i < rows.length) :
    i ∈ (verify config rows).problemRowIndices ↔
      getRowProblemDescription config rows i ≠ "" := by
  rw [mem_verify_problemRowIndices, description_ne_empty_iff hextra hi]
  constructor
  · rintro ⟨-, h | h⟩
    · exact Or.inl h
    · exact Or.inr (dupMessages_ne_nil_iff.mpr (mem_findRows_iff_flag.mp h).2)
  · rintro (h | h)
    · exact ⟨hi, Or.inl h⟩
    · exact ⟨hi, Or.inr (mem_findRows_iff_flag.mpr
        ⟨hi, dupMessages_ne_nil_iff.mp h⟩)⟩

end VerifyCore

namespace VerifyCore

open RowEvaluatorSpec

/-- A required-field message never coincides with the numeric-identifier
format message (their first characters differ). -/
lemma requiredMessage_ne_bms (name : String) :
    ("Required field '" ++ name ++ "' is empty") ≠
      "BMS ID must be a number (digits only, no leading zero)" := by
  intro h
  have hd := congrArg String.data h
  rw [String.data_append, String.data_append] at hd
  rw [show "Required field '".data = 'R' :: "equired field '".data from by decide,
    List.cons_append, List.cons_append,
    show "BMS ID must be a number (digits only, no leading zero)".data =
      'B' :: "MS ID must be a number (digits only, no leading zero)".data
      from by decide] at hd
  injection hd with h1 _
  exact absurd h1 (by decide)

lemma mem_objectIdValidator {m : String} {row : List Cell}
    (h : m ∈ UpdateUsers.objectIdValidator row) :
    m = "Object ID must be a valid UUID" := by
  rw [UpdateUsers.objectIdValidator] at h
  split at h
  · simpa using h
  · cases h

/-- The numeric-identifier format message appears in the evaluator's output
exactly when the BMS ID cell is non-empty and fails the format check — for
any configuration whose extra validators never emit that exact message. -/
lemma bms_mem_iff {row : List Cell} {config : VerifierConfig}
    (hextra : ∀ v ∈ config.extraValidators, ∀ m ∈ v row,
      m ≠ "BMS ID must be a number (digits only, no leading zero)") :
    ("BMS ID must be a number (digits only, no leading zero)" ∈
        getRowValidationErrorMessages row config) ↔
      (cellValue row config.columns.bmsId ≠ "" ∧
        isValidBmsId (cellValue row config.columns.bmsId) = false) := by
  rw [rowMessages_decomposition]
  simp only [List.mem_append, or_assoc]
  constructor
  · rintro (h | h | h | h | h | h | h)
    · obtain ⟨rc, -, hm⟩ := mem_requiredFieldMessages h
      exact absurd hm.symm (requiredMessage_ne_bms rc.name)
    · obtain ⟨v, hv, hmv⟩ := mem_extraValidatorMessages h
      exact absurd rfl (hextra v hv _ hmv)
    · exact absurd (mem_eitherOrMessages h) (by decide)
    · exact numericFormatMessages_mem_iff.mp h
    · rcases mem_identityAddressMessages h with h' | h' <;>
        exact absurd h' (by decide)
    · rcases mem_contactAddressMessages h with h' | h' <;>
        exact absurd h' (by decide)
    · exact absurd (mem_localPartConsistencyMessages h) (by decide)
  · intro hc
    exact Or.inr (Or.inr (Or.inr (Or.inl
      (numericFormatMessages_mem_iff.mpr hc))))

/-- The either-or message appears whenever both identifier cells are empty. -/
lemma eitherOr_mem {row : List Cell} {config : VerifierConfig}
    (hbms : cellValue row config.columns.bmsId = "")
    (hhr : cellValue row config.columns.localHrId = "") :
    "BMS ID and Local HR ID are both empty" ∈
      getRowValidationErrorMessages row config := by
  rw [rowMessages_decomposition]
  simp only [List.mem_append, or_assoc]
  refine Or.inr (Or.inr (Or.inl ?_))
  rw [eitherOrMessages, if_pos ⟨hbms, hhr⟩]
  simp

lemma updateConfig_extra_mem {v : List Cell → List String}
    (hv : v ∈ UpdateUsers.updateConfig.extraValidators) :
    v = UpdateUsers.objectIdValidator := by
  simpa [UpdateUsers.updateConfig] using hv

end VerifyCore

namespace VerifyCore

/-- The legacy standalone create evaluator computes the same message list as
the shared engine under the create configuration. -/
lemma legacyCreate_msgs_eq (row : List Cell) :
    LegacyCreate.getRowValidationErrorMessages row =
      getRowValidationErrorMessages row CreateUsers.createConfig := by
  simp only [LegacyCreate.getRowValidationErrorMessages,
    getRowValidationErrorMessages, LegacyCreate.REQUIRED_COLUMNS,
    CreateUsers.createConfig, CreateUsers.COL_userPrincipalName,
    CreateUsers.COL_mail, CreateUsers.COL_bmsId, CreateUsers.COL_localHrId,
    CreateUsers.COL_firstName, CreateUsers.COL_lastName,
    CreateUsers.COL_displayName, CreateUsers.COL_country, CreateUsers.COL_city,
    List.map_nil, List.flatten_nil, List.append_nil, List.nil_append]

/-- The legacy standalone update evaluator computes the same message list as
the shared engine under the update configuration. -/
lemma legacyUpdate_msgs_eq (row : List Cell) :
    LegacyUpdate.getRowValidationErrorMessages row =
      getRowValidationErrorMessages row UpdateUsers.updateConfig := by
  simp only [LegacyUpdate.getRowValidationErrorMessages,
    getRowValidationErrorMessages, LegacyUpdate.REQUIRED_COLUMNS,
    UpdateUsers.updateConfig, UpdateUsers.objectIdValidator,
    UpdateUsers.COL_objectId, UpdateUsers.COL_userPrincipalName,
    UpdateUsers.COL_mail, UpdateUsers.COL_bmsId, UpdateUsers.COL_localHrId,
    UpdateUsers.COL_firstName, UpdateUsers.COL_lastName,
    UpdateUsers.COL_displayName, UpdateUsers.COL_country, UpdateUsers.COL_city,
    List.map_cons, List.map_nil, List.flatten_cons, List.flatten_nil,
    List.append_nil, List.nil_append, List.append_assoc]

lemma legacyCreate_verify_eq (rows : List (List Cell)) :
    LegacyCreate.verifyUsers rows = verify CreateUsers.createConfig rows := by
  have hucs : CreateUsers.createConfig.uniqueColumns =
      LegacyCreate.UNIQUE_COLUMNS := rfl
  rw [LegacyCreate.verifyUsers, verify]
  simp only [hucs, legacyCreate_msgs_eq]

lemma legacyUpdate_verify_eq (rows : List (List Cell)) :
    LegacyUpdate.verifyUpdateUsers rows =
      verify UpdateUsers.updateConfig rows := by
  have hucs : UpdateUsers.updateConfig.uniqueColumns =
      LegacyUpdate.UNIQUE_COLUMNS := rfl
  rw [LegacyUpdate.verifyUpdateUsers, verify]
  simp only [hucs, legacyUpdate_msgs_eq]

lemma legacyCreate_desc_eq (rows : List (List Cell)) (i : Nat) :
    LegacyCreate.getRowProblemDescription rows i =
      getRowProblemDescription CreateUsers.createConfig rows i := by
  have hucs : CreateUsers.createConfig.uniqueColumns =
      LegacyCreate.UNIQUE_COLUMNS := rfl
  rw [LegacyCreate.getRowProblemDescription, getRowProblemDescription]
  cases h : rows.get? i with
  | none => rfl
  | some row =>
    dsimp only
    rw [legacyCreate_msgs_eq, hucs]

lemma legacyUpdate_desc_eq (rows : List (List Cell)) (i : Nat) :
    LegacyUpdate.getUpdateRowProblemDescription rows i =
      getRowProblemDescription UpdateUsers.updateConfig rows i := by
  have hucs : UpdateUsers.updateConfig.uniqueColumns =
      LegacyUpdate.UNIQUE_COLUMNS := rfl
  rw [LegacyUpdate.getUpdateRowProblemDescription, getRowProblemDescription]
  cases h : rows.get? i with
  | none => rfl
  | some row =>
    dsimp only
    rw [legacyUpdate_msgs_eq, hucs]

end VerifyCore

namespace VerifyCore

/-- The numeric-identifier pattern accepts exactly a single zero, or a
non-zero digit followed by digits. -/
lemma bmsIdPattern_iff {s : String} :
    bmsIdPattern s = true ↔
      (s = "0" ∨ ∃ c cs, s.data = c :: cs ∧ '1' ≤ c ∧ c ≤ '9' ∧
        ∀ d ∈ cs, '0' ≤ d ∧ d ≤ '9') := by
  rw [bmsIdPattern, Bool.or_eq_true, decide_eq_true_eq]
  refine or_congr Iff.rfl ?_
  cases hdata : s.data with
  | nil =>
    constructor
    · intro h
      cases h
    · rintro ⟨c, cs, hcc, -⟩
      cases hcc
  | cons c cs =>
    simp only [Bool.and_eq_true, decide_eq_true_eq, List.all_eq_true]
    constructor
    · rintro ⟨⟨h1, h2⟩, h3⟩
      refine ⟨c, cs, rfl, h1, h2, fun d hd => ?_⟩
      simpa [Bool.and_eq_true, decide_eq_true_eq] using h3 d hd
    · rintro ⟨c', cs', heq, h1, h2, h3⟩
      obtain ⟨ha, hb⟩ : c = c' ∧ cs = cs' := by
        injection heq with ha hb
        exact ⟨ha, hb⟩
      subst ha
      subst hb
      exact ⟨⟨h1, h2⟩, fun d hd => by simpa using h3 d hd⟩

end VerifyCore

/-!
## The specified claims
-/

open VerifyCore RowEvaluatorSpec

/-- Claim C1, counterexample: the reserved no-input-table sentinel has
`problemCount = 0` and `totalRows` within the ceiling of 100, yet its
`success` is false, so the claimed equivalence fails on the sentinel. -/
theorem C1_sentinel_counterexample :
    ¬ ((noInputTableResult.success = true) ↔
        (noInputTableResult.problemCount = 0 ∧
          noInputTableResult.totalRows ≤ MAX_DATA_ROWS)) := by
  decide

/-- Claim C1, amended: for every result of `verify(rows)`, `success` is true
iff `problemCount = 0` and `totalRows` does not exceed the ceiling of 100;
the sentinel is excluded, its `success` being false by construction. -/
theorem C1_success_iff :
    ∀ (config : VerifierConfig) (rows : List (List Cell)),
      (verify config rows).success = true ↔
        ((verify config rows).problemCount = 0 ∧
          (verify config rows).totalRows ≤ MAX_DATA_ROWS) := by
  intro config rows
  have hs : (verify config rows).success =
      (decide ((verify config rows).problemCount = 0) &&
        !decide (MAX_DATA_ROWS < (verify config rows).totalRows)) := rfl
  rw [hs]
  simp [Nat.not_lt]

/-- Claim C2, counterexample: a three-row create batch of the described
shape (row 0 fully valid, row 1 with an empty display-name cell, row 2
sharing row 0's User Principal Name) on which `verify` does not return
`okCount=1, problemCount=2, problemRowIndices=[0,2]` — row 1 is flagged
as well. -/
theorem C2_scenario_counterexample :
    (getRowValidationErrorMessages Scenario3Row.row0
        CreateUsers.createConfig = []) ∧
    cellValue Scenario3Row.row1 7 = "" ∧
    cellValue Scenario3Row.row2 0 = cellValue Scenario3Row.row0 0 ∧
    ¬ ((CreateUsers.verifyUsers Scenario3Row.batch).totalRows = 3 ∧
        (CreateUsers.verifyUsers Scenario3Row.batch).okCount = 1 ∧
        (CreateUsers.verifyUsers Scenario3Row.batch).problemCount = 2 ∧
        (CreateUsers.verifyUsers Scenario3Row.batch).problemRowIndices
          = [0, 2]) := by
  decide

/-- Claim C2, amended: on that three-row batch the create verifier returns
`totalRows=3`, `okCount=0`, `problemCount=3`, `problemRowIndices=[0,1,2]`
(row 1 is flagged too, for its missing required field) and `success=false`. -/
theorem C2_scenario :
    (getRowValidationErrorMessages Scenario3Row.row0
        CreateUsers.createConfig = []) ∧
    cellValue Scenario3Row.row1 7 = "" ∧
    cellValue Scenario3Row.row2 0 = cellValue Scenario3Row.row0 0 ∧
    CreateUsers.verifyUsers Scenario3Row.batch =
      { success := false, totalRows := 3, okCount := 0, problemCount := 3,
        problemRowIndices := [0, 1, 2] } := by
  decide

/-- Claim C3: the row evaluator emits its diagnostics in the fixed category
order — required-field messages in configuration order (formatted
`Required field '<name>' is empty`), extra-validator messages in list order,
the either-or message, the numeric-identifier format message, the
identity-address messages, the contact-address messages, and last the
local-part consistency message. -/
theorem C3_message_order :
    ∀ (row : List Cell) (config : VerifierConfig),
      getRowValidationErrorMessages row config =
        requiredFieldMessages row config ++
        extraValidatorMessages row config ++
        eitherOrMessages row config ++
        numericFormatMessages row config ++
        identityAddressMessages row config ++
        contactAddressMessages row config ++
        localPartConsistencyMessages row config :=
  rowMessages_decomposition

/-- Claim C4: the duplicate detector returns exactly the row indices that
have, in some unique column, a non-empty trimmed value whose lower-casing
equals that of another row; rows with an empty cell in a unique column are
never flagged for that column. -/
theorem C4_duplicate_detector :
    ∀ (rows : List (List Cell)) (uniqueColumns : List ColumnRef) (i : Nat),
      i ∈ findRowsWithDuplicateUniqueValues rows uniqueColumns ↔
        i < rows.length ∧ ∃ uc ∈ uniqueColumns,
          cellValue (rows.getD i []) uc.index ≠ "" ∧
            ∃ j, j < rows.length ∧ j ≠ i ∧
              jsToLower (cellValue (rows.getD j []) uc.index) =
                jsToLower (cellValue (rows.getD i []) uc.index) :=
  fun _ _ _ => mem_findRowsWithDuplicateUniqueValues

/-- Claim C5: every result of `verify` satisfies
`okCount + problemCount = totalRows`, `totalRows = rows.length`, and its
`problemRowIndices` is strictly increasing with no duplicate entries. -/
theorem C5_result_invariants :
    ∀ (config : VerifierConfig) (rows : List (List Cell)),
      (verify config rows).okCount + (verify config rows).problemCount =
          (verify config rows).totalRows ∧
        (verify config rows).totalRows = rows.length ∧
        (verify config rows).problemRowIndices.Pairwise (· < ·) ∧
        (verify config rows).problemRowIndices.Nodup := by
  intro config rows
  have hidx : (verify config rows).problemRowIndices =
      (List.range rows.length).filter (fun i =>
        decide (0 < (getRowValidationErrorMessages (rows.getD i [])
            config).length)
          || (findRowsWithDuplicateUniqueValues rows
              config.uniqueColumns).contains i) := rfl
  have hpw : (verify config rows).problemRowIndices.Pairwise (· < ·) := by
    rw [hidx]
    exact (List.pairwise_lt_range rows.length).sublist (List.filter_sublist _)
  have hle : (verify config rows).problemCount ≤ rows.length := by
    rw [show (verify config rows).problemCount =
        (verify config rows).problemRowIndices.length from rfl, hidx]
    calc ((List.range rows.length).filter _).length
        ≤ (List.range rows.length).length := List.length_filter_le _ _
      _ = rows.length := List.length_range rows.length
  exact ⟨Nat.sub_add_cancel hle, rfl, hpw, hpw.imp fun h => Nat.ne_of_lt h⟩

/-- Claim C6: the per-row problem description is the newline-join of the
row's validation messages followed by its duplicate messages, and is the
empty string when the index is out of range (the join of the empty message
list being empty covers problem-free rows). -/
theorem C6_description :
    ∀ (config : VerifierConfig) (rows : List (List Cell)) (i : Nat),
      getRowProblemDescription config rows i =
        if i < rows.length then
          jsJoin "\n"
            (getRowValidationErrorMessages (rows.getD i []) config ++
              getRowDuplicateMessages rows i config.uniqueColumns)
        else "" := by
  intro config rows i
  by_cases hi : i < rows.length
  · rw [if_pos hi, getRowProblemDescription, get?_eq_getD hi]
    dsimp only
    by_cases hnil : (getRowValidationErrorMessages (rows.getD i []) config ++
        getRowDuplicateMessages rows i config.uniqueColumns).length = 0
    · rw [if_pos hnil, List.length_eq_zero.mp hnil]
      rfl
    · rw [if_neg hnil]
      rfl
  · rw [if_neg hi, getRowProblemDescription,
      List.get?_eq_none.mpr (Nat.le_of_not_lt hi)]

/-- Claim C7: the numeric-identifier check accepts the empty string, accepts
a non-empty string iff it is `0` or a non-zero digit followed by digits
(`0`, `123` valid; `01`, `007` invalid); the evaluator emits the
digits-only/no-leading-zero message exactly when the cell is non-empty and
fails the check, and an empty cell yields no format message but joins the
either-or check with the secondary identifier. -/
theorem C7_numeric_identifier :
    isValidBmsId "" = true ∧
    (∀ s : String, s ≠ "" →
      (isValidBmsId s = true ↔
        (s = "0" ∨ ∃ c cs, s.data = c :: cs ∧ '1' ≤ c ∧ c ≤ '9' ∧
          ∀ d ∈ cs, '0' ≤ d ∧ d ≤ '9'))) ∧
    (isValidBmsId "0" = true ∧ isValidBmsId "123" = true ∧
      isValidBmsId "01" = false ∧ isValidBmsId "007" = false) ∧
    (∀ row : List Cell,
      ("BMS ID must be a number (digits only, no leading zero)" ∈
          getRowValidationErrorMessages row CreateUsers.createConfig ↔
        (cellValue row CreateUsers.createConfig.columns.bmsId ≠ "" ∧
          isValidBmsId
            (cellValue row CreateUsers.createConfig.columns.bmsId) = false)) ∧
      ("BMS ID must be a number (digits only, no leading zero)" ∈
          getRowValidationErrorMessages row UpdateUsers.updateConfig ↔
        (cellValue row UpdateUsers.updateConfig.columns.bmsId ≠ "" ∧
          isValidBmsId
            (cellValue row UpdateUsers.updateConfig.columns.bmsId) = false))) ∧
    (∀ row : List Cell,
      cellValue row CreateUsers.createConfig.columns.bmsId = "" →
      cellValue row CreateUsers.createConfig.columns.localHrId = "" →
        "BMS ID and Local HR ID are both empty" ∈
          getRowValidationErrorMessages row CreateUsers.createConfig) := by
  refine ⟨by decide, ?_, by decide, ?_, ?_⟩
  · intro s hs
    rw [isValidBmsId, if_neg hs]
    exact bmsIdPattern_iff
  · intro row
    constructor
    · exact bms_mem_iff (fun v hv => by
        simp [CreateUsers.createConfig] at hv)
    · refine bms_mem_iff (fun v hv m hm => ?_)
      rw [updateConfig_extra_mem hv] at hm
      rw [mem_objectIdValidator hm]
      decide
  · intro row hbms hhr
    exact eitherOr_mem hbms hhr

/-- Witness for C7: instantiated at `"123"` and at the empty ten-column row. -/
theorem C7_numeric_identifier_witness :
    (("123" : String) ≠ "") ∧
    (isValidBmsId "123" = true ↔
      (("123" : String) = "0" ∨ ∃ c cs, "123".data = c :: cs ∧
        '1' ≤ c ∧ c ≤ '9' ∧ ∀ d ∈ cs, '0' ≤ d ∧ d ≤ '9')) ∧
    "BMS ID and Local HR ID are both empty" ∈
      getRowValidationErrorMessages [] CreateUsers.createConfig :=
  ⟨by decide, C7_numeric_identifier.2.1 "123" (by decide),
    C7_numeric_identifier.2.2.2.2 [] (by decide) (by decide)⟩

/-- Claim C8: the legacy standalone validators compute exactly what the
config-driven engine computes — equal verify results and equal per-row
descriptions, for the create and for the update configuration. -/
theorem C8_consolidation_equivalence :
    (∀ rows : List (List Cell),
        LegacyCreate.verifyUsers rows = CreateUsers.verifyUsers rows) ∧
      (∀ (rows : List (List Cell)) (i : Nat),
        LegacyCreate.getRowProblemDescription rows i =
          CreateUsers.getRowProblemDescription rows i) ∧
      (∀ rows : List (List Cell),
        LegacyUpdate.verifyUpdateUsers rows =
          UpdateUsers.verifyUpdateUsers rows) ∧
      (∀ (rows : List (List Cell)) (i : Nat),
        LegacyUpdate.getUpdateRowProblemDescription rows i =
          UpdateUsers.getUpdateRowProblemDescription rows i) :=
  ⟨fun rows => legacyCreate_verify_eq rows,
   fun rows i => legacyCreate_desc_eq rows i,
   fun rows => legacyUpdate_verify_eq rows,
   fun rows i => legacyUpdate_desc_eq rows i⟩

/-- Claim C9: the engine is total on malformed data — an out-of-range,
`null` or `undefined` cell reads as the empty string, `verify` always
returns a result covering every row, and an out-of-range description is the
empty string (all embedded operations are total functions; nothing can
throw). -/
theorem C9_totality :
    ∀ (config : VerifierConfig) (rows : List (List Cell)) (row : List Cell)
      (i j : Nat),
      (row.length ≤ j → cellValue row j = "") ∧
      (row.get? j = some Cell.null → cellValue row j = "") ∧
      (row.get? j = some Cell.undef → cellValue row j = "") ∧
      (verify config rows).totalRows = rows.length ∧
      (rows.length ≤ i → getRowProblemDescription config rows i = "") := by
  intro config rows row i j
  refine ⟨?_, ?_, ?_, rfl, ?_⟩
  · intro h
    rw [cellValue, List.getD_eq_default row Cell.undef h]
    rfl
  · intro h
    have hg : row.getD j Cell.undef = Cell.null := by
      rw [List.getD_eq_getElem?_getD, ← List.get?_eq_getElem?, h]
      rfl
    rw [cellValue, hg]
    rfl
  · intro h
    have hg : row.getD j Cell.undef = Cell.undef := by
      rw [List.getD_eq_getElem?_getD, ← List.get?_eq_getElem?, h]
      rfl
    rw [cellValue, hg]
    rfl
  · intro h
    rw [getRowProblemDescription, List.get?_eq_none.mpr h]

/-- Witness for C9: a short row read out of range, a `null` cell, an
`undefined` cell, and an out-of-range description, all evaluating to the
empty string. -/
theorem C9_totality_witness :
    cellValue [Cell.str "x"] 5 = "" ∧
    cellValue [Cell.null] 0 = "" ∧
    cellValue [Cell.undef] 0 = "" ∧
    getRowProblemDescription CreateUsers.createConfig [[Cell.str "x"]] 7
      = "" :=
  ⟨(C9_totality CreateUsers.createConfig [] [Cell.str "x"] 0 5).1 (by decide),
   (C9_totality CreateUsers.createConfig [] [Cell.null] 0 0).2.1 (by decide),
   (C9_totality CreateUsers.createConfig [] [Cell.undef] 0 0).2.2.1
     (by decide),
   (C9_totality CreateUsers.createConfig [[Cell.str "x"]] [] 7 0).2.2.2.2
     (by decide)⟩

/-- Claim C10: for the create and the update verifier, an in-range row index
is in the problem set exactly when its problem description is non-empty. -/
theorem C10_flag_description_agreement :
    ∀ (rows : List (List Cell)) (i : Nat), i < rows.length →
      ((i ∈ (CreateUsers.verifyUsers rows).problemRowIndices ↔
          CreateUsers.getRowProblemDescription rows i ≠ "") ∧
        (i ∈ (UpdateUsers.verifyUpdateUsers rows).problemRowIndices ↔
          UpdateUsers.getUpdateRowProblemDescription rows i ≠ "")) := by
  intro rows i hi
  constructor
  · simp only [CreateUsers.verifyUsers, CreateUsers.getRowProblemDescription]
    exact problem_iff_description
      (fun v hv => by simp [CreateUsers.createConfig] at hv) hi
  · simp only [UpdateUsers.verifyUpdateUsers,
      UpdateUsers.getUpdateRowProblemDescription]
    refine problem_iff_description (fun v hv row m hm => ?_) hi
    rw [updateConfig_extra_mem hv] at hm
    rw [mem_objectIdValidator hm]
    decide

/-- Witness for C10: the single-row batch whose row is empty — the row is
flagged (required fields missing) and its description is non-empty. -/
theorem C10_flag_description_agreement_witness :
    (0 : Nat) < ([([] : List Cell)] : List (List Cell)).length ∧
    ((0 ∈ (CreateUsers.verifyUsers [[]]).problemRowIndices ↔
        CreateUsers.getRowProblemDescription [[]] 0 ≠ "") ∧
      (0 ∈ (UpdateUsers.verifyUpdateUsers [[]]).problemRowIndices ↔
        UpdateUsers.getUpdateRowProblemDescription [[]] 0 ≠ "")) :=
  ⟨by decide, C10_flag_description_agreement [[]] 0 (by decide)⟩
